import Mathlib

/-!
# Verification of the pylgnetcast client (src/pylgnetcast/pylgnetcast.py)

Shallow embedding of the LG NetCast TV client.  The HTTP transport
(`requests`) is modelled as an environment function from requests to
responses; the XML decode primitive (`ElementTree.XML`) is modelled as the
identity on already-parsed trees, with a malformed body represented by
`none`.  Each Python method of `LgNetCastClient` becomes a Lean function
that additionally returns the request(s) it dispatched, so that theorems
can speak about what was sent on the wire.
-/

namespace PyLgNetCast

/-- A parsed XML element (models `xml.etree.ElementTree.Element`):
a tag, optional text content, and a list of child elements. -/
inductive XmlTree where
  | elem (tag : String) (text : Option String) (children : List XmlTree)

def XmlTree.tag : XmlTree → String
  | .elem t _ _ => t

def XmlTree.text : XmlTree → Option String
  | .elem _ tx _ => tx

def XmlTree.children : XmlTree → List XmlTree
  | .elem _ _ ch => ch

/-- `Element.find(tag)`: the first direct child whose tag matches, if any. -/
def XmlTree.find (t : XmlTree) (tag : String) : Option XmlTree :=
  t.children.find? (fun c => c.tag = tag)

mutual
/-- `Element.iter(tag)`: this element and all sub-elements, in document
order, restricted to elements whose tag matches. -/
def XmlTree.iter : XmlTree → String → List XmlTree
  | .elem tg tx ch, tag =>
      (if tg = tag then [XmlTree.elem tg tx ch] else []) ++ XmlTree.iterList ch tag

def XmlTree.iterList : List XmlTree → String → List XmlTree
  | [], _ => []
  | t :: ts, tag => XmlTree.iter t tag ++ XmlTree.iterList ts tag
end

mutual
/-- `ElementTree.tostring(..., encoding=unicode)`: serialize an element
(no XML declaration). -/
def serializeXml : XmlTree → String
  | .elem tg tx ch =>
      "<" ++ tg ++ ">" ++ tx.getD "" ++ serializeChildren ch ++ "</" ++ tg ++ ">"

def serializeChildren : List XmlTree → String
  | [] => ""
  | t :: ts => serializeXml t ++ serializeChildren ts
end

mutual
/-- All elements of the tree (the element itself and every descendant)
in document order: the spec-side notion used to characterise `iter`. -/
def documentOrder : XmlTree → List XmlTree
  | .elem tg tx ch => XmlTree.elem tg tx ch :: documentOrderList ch

def documentOrderList : List XmlTree → List XmlTree
  | [] => []
  | t :: ts => documentOrder t ++ documentOrderList ts
end

/-- Python `'%s' % x` where `x` is `None` or a string. -/
def pyStr : Option String → String
  | none => "None"
  | some s => s

/- ## Module constants -/

def LG_HANDLE_KEY_INPUT : String := "HandleKeyInput"
def LG_HANDLE_CHANNEL_CHANGE : String := "HandleChannelChange"
def DEFAULT_PORT : Nat := 8080

namespace LG_PROTOCOL
def HDCP : String := "hdcp"
def ROAP : String := "roap"
end LG_PROTOCOL

/-- `requests.codes.ok` -/
def requests_codes_ok : Nat := 200

/- ## Transport model -/

/-- A request dispatched by `_send_to_tv`: either an HTTP POST of an XML
message body to a url, or an HTTP GET with a `target` query parameter. -/
inductive HttpRequest where
  | post (url : String) (body : String)
  | get (url : String) (target : String)
deriving DecidableEq

/-- A transport response: the HTTP status code, and the response text
as already parsed XML (`none` models a body `ElementTree.XML` rejects). -/
structure HttpResponse where
  status_code : Nat
  body : Option XmlTree

/-- The environment: what the TV answers to each request. -/
abbrev HttpEnv := HttpRequest → HttpResponse

/-- An exception escaping a client method. -/
inductive PyException where
  | AccessTokenError (msg : String)
  | SessionIdError (msg : String)
  | XmlParseError
  | AttributeError
deriving DecidableEq

/- ## The client -/

structure LgNetCastClient where
  url : String
  access_token : String
  protocol : String
  _session : Option String
deriving DecidableEq

/-- The XML declaration prefix (class attribute `XML`). -/
def XML : String := "<?xml version=\"1.0\" encoding=\"utf-8\"?>"

/-- Class attribute `KEY`: the display-pair-key message body. -/
def KEY : String := XML ++ "<auth><type>AuthKeyReq</type></auth>"

/-- Class attribute `AUTH` after `%`-substitution. -/
def AUTH (ty value : String) : String :=
  XML ++ "<auth><type>" ++ ty ++ "</type><value>" ++ value ++ "</value></auth>"

/-- Class attribute `COMMAND` after `%`-substitution. -/
def COMMAND (session ty payload : String) : String :=
  XML ++ "<command><session>" ++ session ++ "</session><type>" ++ ty
    ++ "</type>" ++ payload ++ "</command>"

/-- `__init__`: build the base url and store the token and protocol;
no session is held yet. -/
def LgNetCastClient.init (host access_token protocol : String) : LgNetCastClient :=
  { url := "http://" ++ host ++ ":" ++ toString DEFAULT_PORT ++ "/" ++ protocol ++ "/api/"
    access_token := access_token
    protocol := protocol
    _session := none }

/-- `_send_to_tv`: substitute the legacy endpoint under the HDCP dialect,
then POST the message if one is given, else GET the data url built from
the payload target and the held session.  Returns the transport response
together with the request that was dispatched. -/
def LgNetCastClient._send_to_tv (c : LgNetCastClient) (env : HttpEnv)
    (message_type : String) (message : Option String) (payload : Option String) :
    HttpResponse × HttpRequest :=
  let message_type :=
    if c.protocol = LG_PROTOCOL.HDCP then
      if message_type = "auth" then "auth" else "dtv_wifirc"
    else message_type
  match message with
  | some m =>
      let url := c.url ++ message_type
      let req := HttpRequest.post url m
      (env req, req)
  | none =>
      let url := c.url ++ "data?target=" ++ payload.getD "" ++ "&session=" ++ pyStr c._session
      let req := HttpRequest.get url (payload.getD "")
      (env req, req)

/-- `_display_pair_key`: fire-and-forget POST of the `KEY` message to the
auth path. -/
def LgNetCastClient._display_pair_key (c : LgNetCastClient) (env : HttpEnv) :
    HttpResponse × HttpRequest :=
  c._send_to_tv env "auth" (some KEY) none

/-- `_get_session_id`: with no access token, display the pair key and
raise `AccessTokenError`; otherwise POST the auth message, raise
`SessionIdError` on a non-success status, and extract the text of the
`session` child of the parsed response.  Also returns the list of
requests dispatched. -/
def LgNetCastClient._get_session_id (c : LgNetCastClient) (env : HttpEnv) :
    Except PyException (Option String) × List HttpRequest :=
  if c.access_token = "" then
    let (_, req) := c._display_pair_key env
    (Except.error (PyException.AccessTokenError "No access token specified to create session."),
      [req])
  else
    let message := AUTH "AuthReq" c.access_token
    let (response, req) := c._send_to_tv env "auth" (some message) none
    if response.status_code ≠ requests_codes_ok then
      (Except.error (PyException.SessionIdError "Can not get session id from TV."), [req])
    else
      match response.body with
      | none => (Except.error PyException.XmlParseError, [req])
      | some tree =>
          match tree.find "session" with
          | none => (Except.error PyException.AttributeError, [req])
          | some el => (Except.ok el.text, [req])

/-- `__enter__`: acquire a session id and store it.  On an exception the
assignment never runs, so the client state is returned unchanged. -/
def LgNetCastClient.enter (c : LgNetCastClient) (env : HttpEnv) :
    Except PyException Unit × LgNetCastClient × List HttpRequest :=
  match c._get_session_id env with
  | (Except.ok s, log) => (Except.ok (), { c with _session := s }, log)
  | (Except.error e, log) => (Except.error e, c, log)

/-- `__exit__`: clear the held session; no network call. -/
def LgNetCastClient.exit (c : LgNetCastClient) : LgNetCastClient :=
  { c with _session := none }

/-- The key-input envelope built by `send_command`. -/
def send_command_message (session : Option String) (command : Nat) : String :=
  COMMAND (pyStr session) LG_HANDLE_KEY_INPUT ("<value>" ++ toString command ++ "</value>")

/-- `send_command`: build the key-input envelope and POST it.  The Python
method has no return statement, so the transport response is discarded
and the caller receives `None` (typed here as `Option HttpResponse`,
always `none`). -/
def LgNetCastClient.send_command (c : LgNetCastClient) (env : HttpEnv) (command : Nat) :
    Option HttpResponse × HttpRequest :=
  let message := send_command_message c._session command
  let (_, req) := c._send_to_tv env "command" (some message) none
  (none, req)

/-- `change_channel`: same envelope with the channel-change handler and
the serialized channel descriptor as payload; response discarded. -/
def LgNetCastClient.change_channel (c : LgNetCastClient) (env : HttpEnv) (channel : XmlTree) :
    Option HttpResponse × HttpRequest :=
  let message := COMMAND (pyStr c._session) LG_HANDLE_CHANNEL_CHANGE (serializeXml channel)
  let (_, req) := c._send_to_tv env "command" (some message) none
  (none, req)

/-- `query_data`: GET the data url; on a success status parse the body and
collect every `data` element via `iter`; on any other status fall off the
end of the function (Python returns `None`, modelled as `Except.ok none`). -/
def LgNetCastClient.query_data (c : LgNetCastClient) (env : HttpEnv) (query : String) :
    Except PyException (Option (List XmlTree)) × HttpRequest :=
  let (response, req) := c._send_to_tv env "data" none (some query)
  if response.status_code = requests_codes_ok then
    match response.body with
    | none => (Except.error PyException.XmlParseError, req)
    | some tree => (Except.ok (some (tree.iter "data")), req)
  else
    (Except.ok none, req)

/- ## Derived request shapes (abbreviations used by the theorems) -/

/-- The authentication request `_get_session_id` dispatches for a client
holding a token. -/
def authRequest (c : LgNetCastClient) : HttpRequest :=
  HttpRequest.post (c.url ++ "auth") (AUTH "AuthReq" c.access_token)

/-- The GET request `query_data` dispatches. -/
def dataRequest (c : LgNetCastClient) (query : String) : HttpRequest :=
  HttpRequest.get (c.url ++ "data?target=" ++ query ++ "&session=" ++ pyStr c._session) query

/-- The text of the first child of `t` with the given tag, if any. -/
def childText (t : XmlTree) (tag : String) : Option String :=
  (t.find tag).bind XmlTree.text

/-- The XML tree the key-input envelope denotes: root `command` with
`session`, `type` and `value` children. -/
def commandTree (session : String) (command : Nat) : XmlTree :=
  XmlTree.elem "command" none
    [ XmlTree.elem "session" (some session) []
    , XmlTree.elem "type" (some LG_HANDLE_KEY_INPUT) []
    , XmlTree.elem "value" (some (toString command)) [] ]

/- ## Helper lemmas -/

theorem string_data_append (a b : String) : (a ++ b).data = a.data ++ b.data := rfl

theorem string_eq_of_data {a b : String} (h : a.data = b.data) : a = b := by
  cases a
  cases b
  exact congrArg String.mk h

mutual
/-- `iter` is exactly the document-order traversal filtered by tag. -/
theorem iter_eq_filter : (t : XmlTree) → (tag : String) →
    t.iter tag = (documentOrder t).filter (fun u => u.tag = tag)
  | .elem tg tx ch, tag => by
      by_cases h : tg = tag <;>
        simp [XmlTree.iter, documentOrder, XmlTree.tag, h, List.filter_cons,
          iterList_eq_filter ch tag]

theorem iterList_eq_filter : (ts : List XmlTree) → (tag : String) →
    XmlTree.iterList ts tag = (documentOrderList ts).filter (fun u => u.tag = tag)
  | [], _ => by simp [XmlTree.iterList, documentOrderList]
  | t :: ts, tag => by
      simp [XmlTree.iterList, documentOrderList, List.filter_append,
        iter_eq_filter t tag, iterList_eq_filter ts tag]
end

/- ## Claim theorems -/

/-- C1: for every host and every non-empty pairing token, if the auth
exchange returns a success HTTP status and a body that is XML containing a
`session` element with text `S`, then connecting (entering the client
context) stores and yields exactly the session string `S` — and the only
request dispatched is the authentication request. -/
theorem connect_stores_and_yields_session
    (host token protocol S : String) (env : HttpEnv) (tree el : XmlTree)
    (htoken : token ≠ "")
    (hstatus : (env (authRequest (LgNetCastClient.init host token protocol))).status_code
      = requests_codes_ok)
    (hbody : (env (authRequest (LgNetCastClient.init host token protocol))).body = some tree)
    (hfind : tree.find "session" = some el)
    (htext : el.text = some S) :
    (LgNetCastClient.init host token protocol).enter env =
      (Except.ok (),
        { LgNetCastClient.init host token protocol with _session := some S },
        [authRequest (LgNetCastClient.init host token protocol)]) := by
  by_cases hp : protocol = LG_PROTOCOL.HDCP <;>
    simp only [authRequest, LgNetCastClient.init, requests_codes_ok, hp] at hstatus hbody <;>
    simp [LgNetCastClient.enter, LgNetCastClient._get_session_id, LgNetCastClient._send_to_tv,
      LgNetCastClient.init, authRequest, hp, htoken, hstatus, hbody, hfind, htext,
      requests_codes_ok]

def w1Tree : XmlTree := XmlTree.elem "envelope" none [XmlTree.elem "session" (some "S1") []]

def w1Env : HttpEnv := fun _ => { status_code := 200, body := some w1Tree }

theorem connect_stores_and_yields_session_witness :
    ("tok" : String) ≠ "" ∧
    (w1Env (authRequest (LgNetCastClient.init "tv" "tok" LG_PROTOCOL.ROAP))).status_code
      = requests_codes_ok ∧
    (w1Env (authRequest (LgNetCastClient.init "tv" "tok" LG_PROTOCOL.ROAP))).body = some w1Tree ∧
    w1Tree.find "session" = some (XmlTree.elem "session" (some "S1") []) ∧
    (XmlTree.elem "session" (some "S1") []).text = some "S1" ∧
    (LgNetCastClient.init "tv" "tok" LG_PROTOCOL.ROAP).enter w1Env =
      (Except.ok (),
        { LgNetCastClient.init "tv" "tok" LG_PROTOCOL.ROAP with _session := some "S1" },
        [authRequest (LgNetCastClient.init "tv" "tok" LG_PROTOCOL.ROAP)]) :=
  ⟨by decide, rfl, rfl, rfl, rfl,
    connect_stores_and_yields_session "tv" "tok" LG_PROTOCOL.ROAP "S1" w1Env w1Tree
      (XmlTree.elem "session" (some "S1") []) (by decide) rfl rfl rfl rfl⟩

/-- C2: for every client whose pairing token is empty, connecting always
fails with `AccessTokenError`, and the only request dispatched is the
single display-pair-key POST of the `KEY` body (an `AuthKeyReq` message,
not an `AuthReq` authentication message) to the auth path. -/
theorem empty_token_displays_pair_key (host protocol : String) (env : HttpEnv) :
    (LgNetCastClient.init host "" protocol).enter env =
      (Except.error
          (PyException.AccessTokenError "No access token specified to create session."),
        LgNetCastClient.init host "" protocol,
        [HttpRequest.post ((LgNetCastClient.init host "" protocol).url ++ "auth") KEY]) := by
  by_cases hp : protocol = LG_PROTOCOL.HDCP <;>
    simp [LgNetCastClient.enter, LgNetCastClient._get_session_id,
      LgNetCastClient._display_pair_key, LgNetCastClient._send_to_tv, LgNetCastClient.init, hp]

/-- C3: for every non-empty token, if the auth exchange returns a
non-success HTTP status, connecting fails with `SessionIdError` and the
client state is unchanged — in particular the held session stays `none`
(disconnected). -/
theorem nonsuccess_auth_fails_disconnected
    (host token protocol : String) (env : HttpEnv)
    (htoken : token ≠ "")
    (hstatus : (env (authRequest (LgNetCastClient.init host token protocol))).status_code
      ≠ requests_codes_ok) :
    (LgNetCastClient.init host token protocol).enter env =
      (Except.error (PyException.SessionIdError "Can not get session id from TV."),
        LgNetCastClient.init host token protocol,
        [authRequest (LgNetCastClient.init host token protocol)])
    ∧ ((LgNetCastClient.init host token protocol).enter env).2.1._session = none := by
  have hmain : (LgNetCastClient.init host token protocol).enter env =
      (Except.error (PyException.SessionIdError "Can not get session id from TV."),
        LgNetCastClient.init host token protocol,
        [authRequest (LgNetCastClient.init host token protocol)]) := by
    by_cases hp : protocol = LG_PROTOCOL.HDCP <;>
      simp only [authRequest, LgNetCastClient.init, requests_codes_ok, hp] at hstatus <;>
      simp [LgNetCastClient.enter, LgNetCastClient._get_session_id, LgNetCastClient._send_to_tv,
        LgNetCastClient.init, authRequest, hp, htoken, hstatus, requests_codes_ok]
  exact ⟨hmain, by rw [hmain]; rfl⟩

def w3Env : HttpEnv := fun _ => { status_code := 404, body := none }

theorem nonsuccess_auth_fails_disconnected_witness :
    ("tok" : String) ≠ "" ∧
    (w3Env (authRequest (LgNetCastClient.init "tv" "tok" LG_PROTOCOL.ROAP))).status_code
      ≠ requests_codes_ok ∧
    ((LgNetCastClient.init "tv" "tok" LG_PROTOCOL.ROAP).enter w3Env =
      (Except.error (PyException.SessionIdError "Can not get session id from TV."),
        LgNetCastClient.init "tv" "tok" LG_PROTOCOL.ROAP,
        [authRequest (LgNetCastClient.init "tv" "tok" LG_PROTOCOL.ROAP)])
    ∧ ((LgNetCastClient.init "tv" "tok" LG_PROTOCOL.ROAP).enter w3Env).2.1._session = none) :=
  ⟨by decide, by decide,
    nonsuccess_auth_fails_disconnected "tv" "tok" LG_PROTOCOL.ROAP w3Env
      (by decide) (by decide)⟩

/-- C4: for every active session `s` and every remote command code, the
key-input envelope built by `send_command` is the XML declaration followed
by the serialization of a tree whose root is `command`, whose `session`
child text is `s`, whose `type` child text is the key-input handler
identifier, and whose `value` child text is the string form of the code. -/
theorem send_command_envelope (s : String) (code : Nat) :
    send_command_message (some s) code = XML ++ serializeXml (commandTree s code)
    ∧ (commandTree s code).tag = "command"
    ∧ childText (commandTree s code) "session" = some s
    ∧ childText (commandTree s code) "type" = some LG_HANDLE_KEY_INPUT
    ∧ childText (commandTree s code) "value" = some (toString code) := by
  refine ⟨?_, rfl, rfl, rfl, rfl⟩
  apply string_eq_of_data
  simp only [send_command_message, COMMAND, pyStr, LG_HANDLE_KEY_INPUT, commandTree,
    serializeXml, serializeChildren, Option.getD, string_data_append, List.append_assoc]
  rfl

/-- C5: under the legacy (HDCP) dialect every non-auth POST is redirected
to the single legacy endpoint `dtv_wifirc` while auth POSTs still target
`auth`; under the default (ROAP) dialect a command send targets `command`;
and the data query is a GET to the `data` path with `target` and `session`
query parameters under both dialects. -/
theorem dialect_path_mapping (c : LgNetCastClient) (env : HttpEnv) (m q : String)
    (code : Nat) :
    (c.protocol = LG_PROTOCOL.HDCP →
      ∀ mt : String, mt ≠ "auth" →
        (c._send_to_tv env mt (some m) none).2 = HttpRequest.post (c.url ++ "dtv_wifirc") m)
    ∧ (c.protocol = LG_PROTOCOL.HDCP →
        (c._send_to_tv env "auth" (some m) none).2 = HttpRequest.post (c.url ++ "auth") m)
    ∧ (c.protocol = LG_PROTOCOL.ROAP →
        (c.send_command env code).2 =
          HttpRequest.post (c.url ++ "command") (send_command_message c._session code))
    ∧ (c.query_data env q).2 = dataRequest c q := by
  refine ⟨?_, ?_, ?_, ?_⟩
  · intro hp mt hmt
    simp [LgNetCastClient._send_to_tv, hp, hmt]
  · intro hp
    simp [LgNetCastClient._send_to_tv, hp]
  · intro hp
    simp [LgNetCastClient.send_command, LgNetCastClient._send_to_tv, hp,
      LG_PROTOCOL.ROAP, LG_PROTOCOL.HDCP]
  · simp only [LgNetCastClient.query_data, LgNetCastClient._send_to_tv, dataRequest,
      Option.getD]
    split
    · split <;> rfl
    · rfl

def w5Hdcp : LgNetCastClient := LgNetCastClient.init "tv" "tok" LG_PROTOCOL.HDCP

def w5Roap : LgNetCastClient := LgNetCastClient.init "tv" "tok" LG_PROTOCOL.ROAP

def w5Env : HttpEnv := fun _ => { status_code := 200, body := none }

theorem dialect_path_mapping_witness :
    w5Hdcp.protocol = LG_PROTOCOL.HDCP ∧ ("command" : String) ≠ "auth" ∧
    w5Roap.protocol = LG_PROTOCOL.ROAP ∧
    (w5Hdcp._send_to_tv w5Env "command" (some "m") none).2 =
      HttpRequest.post (w5Hdcp.url ++ "dtv_wifirc") "m" ∧
    (w5Hdcp._send_to_tv w5Env "auth" (some "m") none).2 =
      HttpRequest.post (w5Hdcp.url ++ "auth") "m" ∧
    (w5Roap.send_command w5Env 20).2 =
      HttpRequest.post (w5Roap.url ++ "command") (send_command_message w5Roap._session 20) ∧
    (w5Roap.query_data w5Env "cur_channel").2 = dataRequest w5Roap "cur_channel" :=
  ⟨rfl, by decide, rfl,
    (dialect_path_mapping w5Hdcp w5Env "m" "cur_channel" 20).1 rfl "command" (by decide),
    (dialect_path_mapping w5Hdcp w5Env "m" "cur_channel" 20).2.1 rfl,
    (dialect_path_mapping w5Roap w5Env "m" "cur_channel" 20).2.2.1 rfl,
    (dialect_path_mapping w5Roap w5Env "m" "cur_channel" 20).2.2.2⟩

/-- C6: for every query response with success status, `query_data` returns
exactly the `data` elements found anywhere in the parsed tree, which is
the document-order traversal filtered to tag `data` (so three `data`
elements at different depths come back as those three in document order,
and zero `data` elements come back as the empty list, not an error). -/
theorem query_data_collects_all_data
    (c : LgNetCastClient) (env : HttpEnv) (q : String) (tree : XmlTree)
    (hstatus : (env (dataRequest c q)).status_code = requests_codes_ok)
    (hbody : (env (dataRequest c q)).body = some tree) :
    (c.query_data env q).1 = Except.ok (some (tree.iter "data"))
    ∧ tree.iter "data" = (documentOrder tree).filter (fun u => u.tag = "data") := by
  constructor
  · simp only [dataRequest] at hstatus hbody
    simp [LgNetCastClient.query_data, LgNetCastClient._send_to_tv, hstatus, hbody,
      requests_codes_ok]
  · exact iter_eq_filter tree "data"

def w6Tree : XmlTree :=
  XmlTree.elem "envelope" none
    [ XmlTree.elem "data" (some "a") [XmlTree.elem "data" (some "b") []]
    , XmlTree.elem "x" none [XmlTree.elem "y" none [XmlTree.elem "data" (some "c") []]] ]

def w6EmptyTree : XmlTree := XmlTree.elem "envelope" none [XmlTree.elem "x" none []]

def w6C : LgNetCastClient := LgNetCastClient.init "tv" "tok" LG_PROTOCOL.ROAP

def w6Env : HttpEnv := fun _ => { status_code := 200, body := some w6Tree }

def w6EnvEmpty : HttpEnv := fun _ => { status_code := 200, body := some w6EmptyTree }

theorem query_data_collects_all_data_witness :
    (w6Env (dataRequest w6C "cur_channel")).status_code = requests_codes_ok ∧
    (w6Env (dataRequest w6C "cur_channel")).body = some w6Tree ∧
    (w6EnvEmpty (dataRequest w6C "cur_channel")).status_code = requests_codes_ok ∧
    (w6EnvEmpty (dataRequest w6C "cur_channel")).body = some w6EmptyTree ∧
    (w6C.query_data w6Env "cur_channel").1 =
      Except.ok (some
        [ XmlTree.elem "data" (some "a") [XmlTree.elem "data" (some "b") []]
        , XmlTree.elem "data" (some "b") []
        , XmlTree.elem "data" (some "c") [] ]) ∧
    (w6C.query_data w6EnvEmpty "cur_channel").1 = Except.ok (some []) :=
  ⟨rfl, rfl, rfl, rfl,
    (query_data_collects_all_data w6C w6Env "cur_channel" w6Tree rfl rfl).1,
    (query_data_collects_all_data w6C w6EnvEmpty "cur_channel" w6EmptyTree rfl rfl).1⟩

/-- C7: for every query whose transport response has a non-success HTTP
status, `query_data` returns Python `None` (no result) without raising and
without parsing the body — even a malformed body cannot make it fail. -/
theorem query_data_nonsuccess_returns_none
    (c : LgNetCastClient) (env : HttpEnv) (q : String)
    (hstatus : (env (dataRequest c q)).status_code ≠ requests_codes_ok) :
    (c.query_data env q).1 = Except.ok none := by
  simp only [dataRequest, requests_codes_ok] at hstatus
  simp [LgNetCastClient.query_data, LgNetCastClient._send_to_tv, hstatus, requests_codes_ok]

def w7C : LgNetCastClient := LgNetCastClient.init "tv" "tok" LG_PROTOCOL.ROAP

def w7Env : HttpEnv := fun _ => { status_code := 404, body := none }

theorem query_data_nonsuccess_returns_none_witness :
    (w7Env (dataRequest w7C "volume_info")).status_code ≠ requests_codes_ok ∧
    (w7C.query_data w7Env "volume_info").1 = Except.ok none :=
  ⟨by decide,
    query_data_nonsuccess_returns_none w7C w7Env "volume_info" (by decide)⟩

def w8C : LgNetCastClient := LgNetCastClient.init "tv" "tok" LG_PROTOCOL.ROAP

def w8Env : HttpEnv := fun _ => { status_code := 404, body := none }

/-- C8 counterexample: at a concrete client and a transport answering 404,
`send_command` completes without raising, but its Python return value is
`None` — it does not return the raw transport response to the caller
(the `requests` response object is discarded). -/
theorem send_command_does_not_return_response :
    (w8C.send_command w8Env 20).1 = none
    ∧ w8Env ((w8C.send_command w8Env 20).2) = HttpResponse.mk 404 none
    ∧ (none : Option HttpResponse) ≠ some (HttpResponse.mk 404 none) :=
  ⟨rfl, rfl, by simp⟩

/-- C8 amended: for every key-input command send and every channel-change
send, a non-success HTTP status on the transport response does not raise:
the send is fire-and-forget, performing no status inspection and
discarding the transport response (the Python method returns `None`);
this holds for arbitrary transport behaviour. -/
theorem send_fire_and_forget (c : LgNetCastClient) (env : HttpEnv) (code : Nat)
    (channel : XmlTree) :
    (c.send_command env code).1 = none ∧ (c.change_channel env channel).1 = none :=
  ⟨rfl, rfl⟩

def w9C : LgNetCastClient :=
  { LgNetCastClient.init "tv" "tok" LG_PROTOCOL.ROAP with _session := some "S" }

def w9Env : HttpEnv := fun _ => { status_code := 200, body := none }

/-- C9 counterexample: after disconnecting (`__exit__`) a concrete
connected client, `send_command` is not rejected by any error: it
completes normally and dispatches a POST whose envelope carries the
literal session text `None`. -/
theorem send_after_exit_not_rejected :
    (w9C.exit.send_command w9Env 20) =
      (none, HttpRequest.post "http://tv:8080/roap/api/command"
        (XML ++ "<command><session>None</session><type>HandleKeyInput</type><value>20</value></command>")) := by
  rfl

/-- C9 amended: after disconnecting and without reconnecting, issuing a
command is NOT rejected — there is no `NotConnected` (or equivalent)
guard; the client silently sends the key-input request, whose envelope
session text is the literal string `None`. -/
theorem send_after_disconnect_sends_none_session
    (c : LgNetCastClient) (env : HttpEnv) (code : Nat) :
    (c.exit.send_command env code).2 =
      HttpRequest.post
        (c.url ++ if c.protocol = LG_PROTOCOL.HDCP then "dtv_wifirc" else "command")
        (send_command_message none code)
    ∧ send_command_message none code =
        COMMAND "None" LG_HANDLE_KEY_INPUT ("<value>" ++ toString code ++ "</value>") := by
  constructor
  · by_cases hp : c.protocol = LG_PROTOCOL.HDCP <;>
      simp [LgNetCastClient.exit, LgNetCastClient.send_command, LgNetCastClient._send_to_tv, hp]
  · rfl

/-- C10: for every client holding no session, `send_command` still builds
and sends an envelope whose session child text is the literal string
`None`, and `query_data` still builds and sends a GET url whose session
parameter is the literal string `None` — neither checks for an active
session before dispatching. -/
theorem no_session_guard_sends_none
    (c : LgNetCastClient) (env : HttpEnv) (code : Nat) (q : String)
    (h : c._session = none) :
    (c.send_command env code).2 =
      HttpRequest.post
        (c.url ++ if c.protocol = LG_PROTOCOL.HDCP then "dtv_wifirc" else "command")
        (COMMAND "None" LG_HANDLE_KEY_INPUT ("<value>" ++ toString code ++ "</value>"))
    ∧ (c.query_data env q).2 =
        HttpRequest.get (c.url ++ "data?target=" ++ q ++ "&session=" ++ "None") q := by
  constructor
  · by_cases hp : c.protocol = LG_PROTOCOL.HDCP <;>
      simp [LgNetCastClient.send_command, LgNetCastClient._send_to_tv,
        send_command_message, pyStr, h, hp]
  · simp only [LgNetCastClient.query_data, LgNetCastClient._send_to_tv, h, Option.getD]
    split
    · split <;> rfl
    · rfl

def w10C : LgNetCastClient := LgNetCastClient.init "tv" "tok" LG_PROTOCOL.ROAP

def w10Env : HttpEnv := fun _ => { status_code := 200, body := none }

theorem no_session_guard_sends_none_witness :
    w10C._session = none ∧
    ((w10C.send_command w10Env 20).2 =
      HttpRequest.post
        (w10C.url ++ if w10C.protocol = LG_PROTOCOL.HDCP then "dtv_wifirc" else "command")
        (COMMAND "None" LG_HANDLE_KEY_INPUT ("<value>" ++ toString 20 ++ "</value>"))
    ∧ (w10C.query_data w10Env "is_3d").2 =
        HttpRequest.get (w10C.url ++ "data?target=" ++ "is_3d" ++ "&session=" ++ "None") "is_3d") :=
  ⟨rfl, no_session_guard_sends_none w10C w10Env 20 "is_3d" rfl⟩

end PyLgNetCast
